import Mathlib

/-!
Shallow embedding of the relationship-management layer of
`src/src/viewer3d/index.ts` (class `Viewer3d`).

Modelling decisions, all driven by the JavaScript semantics of the source:

* Meshes and lines are identified by their globally unique `name`
  (`Tools.RandomId()`), modelled as a `Nat` drawn from a counter `nextId`.
  All identity tests in the source (`l.name === line.name`,
  `from.name === mesh.name`) become equality of these ids.
* A JS object outlives its removal from the scene: `dispose()` +
  `scene.removeMesh` drop it from the scene registry but other references
  to it (e.g. a stale entry in some `metadata.lines` array) still see its
  fields.  The state therefore keeps the per-object data maps (`meshes`,
  `lines`) intact forever and tracks scene-registry membership separately
  (`sceneMeshes`, `sceneLines`).
* `option.points[i] = mesh.position` stores a live reference to the
  mesh's `Vector3`, which `addInPlace` mutates in place; `.clone()`
  detaches it.  A points entry is therefore `PEnd.ref m` (alias of mesh
  m's position) or `PEnd.fixed v`, and `resolveEnd` reads its current
  value.
* Coordinates are `Int`: every claim under verification uses small
  integer coordinates and no floating-point behaviour.
* Drawable (re)creation — `MeshBuilder.CreateLines` in `updateLine`,
  the builders in `addMesh` — only affects render-engine state derived
  from the modelled geometry, so it contributes nothing to the state.
  The shape-options argument of `addMesh` influences only that drawable
  geometry and is omitted.
-/

/-- A 3D position (`Vector3` of the render engine). -/
structure V3 where
  x : Int
  y : Int
  z : Int
deriving DecidableEq, Repr

/-- The `Point` interface of the source: all three components optional. -/
structure PPoint where
  x : Option Int
  y : Option Int
  z : Option Int
deriving DecidableEq, Repr

/-- One entry of a line's `option.points` array: either a live alias of a
mesh's position (`points[i] = mesh.position`) or a detached fixed value
(after a `.clone()`). -/
inductive PEnd
  | ref (m : Nat)
  | fixed (v : V3)
deriving DecidableEq, Repr

/-- Per-mesh state: `position`, `parent`, and the `metadata` bag
(`type`, `lines`).  `lines` is an array in the source, so it is a `List`
here (duplicates possible, order kept). -/
structure MeshData where
  position : V3
  parent : Option Nat
  mtype : String
  lines : List Nat
deriving DecidableEq, Repr

/-- Per-line state: the `metadata` bag (`from`, `to`) and the two entries
of `option.points` (`points[0]` and `points[points.length - 1]`; every
line of the source has exactly two points).  `from` is a Lean keyword,
hence `lfrom`/`lto`. -/
structure LineData where
  lfrom : Option Nat
  lto : Option Nat
  p0 : PEnd
  p1 : PEnd
deriving DecidableEq, Repr

/-- The whole mutable state of a `Viewer3d` session. -/
structure SceneState where
  meshes : List (Nat × MeshData)
  lines : List (Nat × LineData)
  sceneMeshes : List Nat
  sceneLines : List Nat
  nextId : Nat
deriving DecidableEq, Repr

/-- First binding of an id in an association list (JS object identity:
ids are unique, so at most one entry per id ever exists in reachable
states). -/
def lookupId (k : Nat) : List (Nat × α) → Option α
  | [] => none
  | (k2, v) :: rest => if k = k2 then some v else lookupId k rest

/-- Update every entry of an association list carrying a given id. -/
def updAssoc (k : Nat) (f : α → α) : List (Nat × α) → List (Nat × α)
  | [] => []
  | (k2, v) :: rest =>
      (if k = k2 then (k2, f v) else (k2, v)) :: updAssoc k f rest

/-- Model of `findIndex` + `splice(index, 1)` of the source: remove the first
occurrence of an id from an array, no-op when absent. -/
def eraseFirst (k : Nat) : List Nat → List Nat
  | [] => []
  | x :: rest => if x = k then rest else x :: eraseFirst k rest

def updateMeshData (s : SceneState) (m : Nat) (f : MeshData → MeshData) :
    SceneState :=
  { s with meshes := updAssoc m f s.meshes }

def updateLineData (s : SceneState) (l : Nat) (f : LineData → LineData) :
    SceneState :=
  { s with lines := updAssoc l f s.lines }

/-- Current value of a points entry (reading through the alias). -/
def resolveEnd (s : SceneState) : PEnd → V3
  | PEnd.ref m =>
      match lookupId m s.meshes with
      | some md => md.position
      | none => ⟨0, 0, 0⟩  -- unreachable: mesh data is never dropped
  | PEnd.fixed v => v

/-- Model of `addMesh(type, option)`: the `switch` builds a drawable for
`'box'`/`'sphere'` (position origin) and attaches
`metadata = { type, lines: [] }`; any other `type` leaves `mesh` null and
returns it, adding nothing to the scene. -/
def addMesh (s : SceneState) (type : String) : SceneState × Option Nat :=
  if type = "box" ∨ type = "sphere" then
    let id := s.nextId
    let md : MeshData := ⟨⟨0, 0, 0⟩, none, type, []⟩
    ({ s with
        meshes := s.meshes ++ [(id, md)]
        sceneMeshes := s.sceneMeshes ++ [id]
        nextId := id + 1 }, some id)
  else
    (s, none)

/-- Model of `move(mesh, diff)`: absent components of `diff` default to 0;
`position.addInPlace` mutates the vector in place, so every `PEnd.ref`
alias follows automatically.  `updateLinesOnMesh` only recreates
drawables. -/
def move (s : SceneState) (m : Nat) (diff : PPoint) : SceneState :=
  updateMeshData s m (fun md =>
    { md with position :=
        ⟨md.position.x + diff.x.getD 0,
         md.position.y + diff.y.getD 0,
         md.position.z + diff.z.getD 0⟩ })

/-- Model of `moveTo(mesh, point)`: absent components default to the current
coordinate; delegates to `move` with the componentwise difference. -/
def moveTo (s : SceneState) (m : Nat) (point : PPoint) : SceneState :=
  match lookupId m s.meshes with
  | none => s  -- unreachable: callers hold a live mesh
  | some md =>
      let tx := point.x.getD md.position.x
      let ty := point.y.getD md.position.y
      let tz := point.z.getD md.position.z
      move s m ⟨some (tx - md.position.x),
                some (ty - md.position.y),
                some (tz - md.position.z)⟩

/-- Model of `addLine(mesh1, mesh2)`: fresh line with
`points = [mesh1.position, mesh2.position]` (live aliases),
`from = mesh1`, `to = mesh2`, then `mesh1.metadata.lines.push(line)` and
`mesh2.metadata.lines.push(line)` — two pushes onto the same array when
`mesh1 === mesh2`. -/
def addLine (s : SceneState) (m1 m2 : Nat) : SceneState × Nat :=
  let id := s.nextId
  let ld : LineData := ⟨some m1, some m2, PEnd.ref m1, PEnd.ref m2⟩
  let s1 : SceneState :=
    { s with
        lines := s.lines ++ [(id, ld)]
        sceneLines := s.sceneLines ++ [id]
        nextId := id + 1 }
  let s2 := updateMeshData s1 m1 (fun md => { md with lines := md.lines ++ [id] })
  let s3 := updateMeshData s2 m2 (fun md => { md with lines := md.lines ++ [id] })
  (s3, id)

/-- Model of `disconnectLine(mesh, line)`: `from`/`to`/`option` are destructured
once at entry; an endpoint bound to `mesh` is nulled and its points entry
frozen by `.clone()`; then the first occurrence of the line in
`mesh.metadata.lines` is spliced out.  The trailing `updateLine` only
recreates the drawable. -/
def disconnectLine (s : SceneState) (m : Nat) (l : Nat) : SceneState :=
  match lookupId l s.lines with
  | none => s  -- unreachable: callers hold a live line
  | some ld =>
      let s1 :=
        if ld.lfrom = some m then
          updateLineData s l (fun d =>
            { d with lfrom := none, p0 := PEnd.fixed (resolveEnd s d.p0) })
        else s
      let s2 :=
        if ld.lto = some m then
          updateLineData s1 l (fun d =>
            { d with lto := none, p1 := PEnd.fixed (resolveEnd s1 d.p1) })
        else s1
      updateMeshData s2 m (fun md => { md with lines := eraseFirst l md.lines })

/-- Model of `connectLine(mesh, line, type)`: binds the named endpoint to `mesh`
(points entry becomes a live alias), then pushes the line onto
`mesh.metadata.lines` unless an entry with its name is already there
(the `lines` array was destructured at entry, before the endpoint
updates).  Nothing touches any previously bound mesh's array. -/
def connectLine (s : SceneState) (m : Nat) (l : Nat) (type : String) :
    SceneState :=
  match lookupId m s.meshes, lookupId l s.lines with
  | some md, some _ =>
      let s1 :=
        if type = "from" then
          updateLineData s l (fun d => { d with lfrom := some m, p0 := PEnd.ref m })
        else s
      let s2 :=
        if type = "to" then
          updateLineData s1 l (fun d => { d with lto := some m, p1 := PEnd.ref m })
        else s1
      if l ∈ md.lines then s2
      else updateMeshData s2 m (fun d => { d with lines := d.lines ++ [l] })
  | _, _ => s  -- unreachable: callers hold live objects

/-- Model of `line.dispose(); this.scene.removeMesh(line)`: the line leaves the
scene registry; its data (still referenced elsewhere) survives. -/
def dropLineFromScene (s : SceneState) (l : Nat) : SceneState :=
  { s with sceneLines := eraseFirst l s.sceneLines }

/-- Model of `removeLine(line)`: `{ from, to }` are destructured once; the `to`
branch calls `disconnectLine(from, line)` — the captured `from`, not
`to`.  When `from` is null and `to` is bound, that call dereferences
null (`mesh.metadata` throws), modelled as `none`. -/
def removeLine (s : SceneState) (l : Nat) : Option SceneState :=
  match lookupId l s.lines with
  | none => some s  -- unreachable: callers hold a live line
  | some ld =>
      match ld.lfrom, ld.lto with
      | some fm, some _ =>
          some (dropLineFromScene (disconnectLine (disconnectLine s fm l) fm l) l)
      | some fm, none =>
          some (dropLineFromScene (disconnectLine s fm l) l)
      | none, some _ => none  -- disconnectLine(null, line): TypeError
      | none, none => some (dropLineFromScene s l)

/-- Model of `removeLinesOnMesh(mesh)`: iterate `removeLine` over a snapshot
(`[...lines]`) of the mesh's array; a fault in any step aborts. -/
def removeLinesOnMesh (s : SceneState) (m : Nat) : Option SceneState :=
  match lookupId m s.meshes with
  | none => some s
  | some md => md.lines.foldlM (fun acc l => removeLine acc l) s

/-- Model of `disconnectLinesOnMesh(mesh)`: iterate `disconnectLine` over a
snapshot of the mesh's array. -/
def disconnectLinesOnMesh (s : SceneState) (m : Nat) : SceneState :=
  match lookupId m s.meshes with
  | none => s
  | some md => md.lines.foldl (fun acc l => disconnectLine acc m l) s

/-- Model of `removeMesh(mesh)`: disconnect everything, dispose, drop from the
scene registry (the mesh data, still referenced by stale aliases,
survives). -/
def removeMesh (s : SceneState) (m : Nat) : SceneState :=
  let s1 := disconnectLinesOnMesh s m
  { s1 with sceneMeshes := eraseFirst m s1.sceneMeshes }

/-- Model of `root(mesh)`: recursion on `mesh.parent` with no cycle guard.  The
source recursion need not terminate, so the embedding spends one unit of
fuel per step; `none` means the fuel ran out, i.e. the source call has
not returned within that many steps. -/
def rootFuel (s : SceneState) : Nat → Nat → Option Nat
  | 0, _ => none
  | fuel + 1, m =>
      match lookupId m s.meshes with
      | none => none  -- unreachable: callers hold a live mesh
      | some md =>
          match md.parent with
          | none => some m
          | some p => rootFuel s fuel p

/-- A mesh of an imported asset, as far as `importMesh` inspects it:
its `parent` and its (possibly absent) `metadata` fields.  The id
reassignment loop touches only names, which are not part of this
record. -/
structure ImpMesh where
  parent : Option Nat
  mtype : Option String
  mlines : Option (List Nat)
deriving DecidableEq, Repr

inductive ImportErr
  | loadFailed     -- the collaborator's promise rejected
  | nullRootAccess -- `meshes.find` returned undefined; `rootMesh.metadata` throws
deriving DecidableEq, Repr

/-- The tagging applied to the found root: ensure a metadata object,
then `metadata.type = 'import'; metadata.lines = []`. -/
def tagRoot (m : ImpMesh) : ImpMesh :=
  { m with mtype := some "import", mlines := some [] }

/-- Model of `meshes.find(mesh => !mesh.parent)`: the first parentless mesh. -/
def findRoot : List ImpMesh → Option ImpMesh
  | [] => none
  | m :: rest => if m.parent.isNone then some m else findRoot rest

/-- Model of `importMesh(rootPath, name)`: the loader's outcome is the input
(`none` = rejected load, whose rejection propagates out of the `await`).
`meshes.find(mesh => !mesh.parent)` takes the FIRST parentless mesh;
with no parentless mesh `rootMesh` is undefined and the subsequent
`rootMesh.metadata` access throws.  Returns the tagged `rootMesh`.
The id-reassignment loop touches only the `name`/`id` fields, which are
not part of `ImpMesh`. -/
def importMesh (res : Option (List ImpMesh)) : Except ImportErr ImpMesh :=
  match res with
  | none => Except.error ImportErr.loadFailed
  | some meshes =>
      match findRoot meshes with
      | none => Except.error ImportErr.nullRootAccess
      | some rootMesh => Except.ok (tagRoot rootMesh)

/-! Section: Observation helpers -/

/-- The `metadata.lines` array of a mesh (the connector set of the
spec). -/
def linesOf (s : SceneState) (m : Nat) : List Nat :=
  match lookupId m s.meshes with
  | some md => md.lines
  | none => []

def fromOf (s : SceneState) (l : Nat) : Option Nat :=
  (lookupId l s.lines).bind LineData.lfrom

def toOf (s : SceneState) (l : Nat) : Option Nat :=
  (lookupId l s.lines).bind LineData.lto

def posOf (s : SceneState) (m : Nat) : Option V3 :=
  (lookupId m s.meshes).map MeshData.position

/-- Ids are globally unique (`Tools.RandomId`), so each id heads at most
one entry of each data map.  Every state reachable through the public
operations satisfies this. -/
def WFIds (s : SceneState) : Prop :=
  (s.meshes.map Prod.fst).Nodup ∧ (s.lines.map Prod.fst).Nodup

instance : DecidablePred WFIds := fun s => by
  unfold WFIds; infer_instance

/-! Section: Concrete states used by the claims -/

def emptyScene : SceneState := ⟨[], [], [], [], 0⟩

/-- Two boxes, ids 0 and 1. -/
def sBox2 : SceneState := (addMesh (addMesh emptyScene "box").1 "box").1

/-- Three boxes, ids 0, 1, 2. -/
def sBox3 : SceneState := (addMesh sBox2 "box").1

/-- Boxes 0 and 1 joined by line 2 (`addLine 0 1`). -/
def sLine01 : SceneState := (addLine sBox2 0 1).1

/-- One box 0 with the self-loop line 1 (`addLine 0 0`). -/
def sSelfLoop : SceneState := (addLine (addMesh emptyScene "box").1 0 0).1

/-- Boxes 0,1,2; line 3 from 0 to 2; then rebinding
`connectLine(1, line3, 'from')`. -/
def sRebind : SceneState := connectLine (addLine sBox3 0 2).1 1 3 "from"

/-- Line 2 of `sLine01` with its `from` endpoint disconnected: `from`
null, `to` still bound to mesh 1. -/
def sFreeFrom : SceneState := disconnectLine sLine01 0 2

/-- The state left by `removeLine` on line 2 of `sLine01` (the call
completes, so the default is never taken). -/
def sRemovedBoth : SceneState := (removeLine sLine01 2).getD emptyScene

/-- Parent chain 0 → 1 → 2, 2 parentless (as produced by an import). -/
def chainScene : SceneState :=
  ⟨[(0, ⟨⟨0, 0, 0⟩, some 1, "import", []⟩),
    (1, ⟨⟨0, 0, 0⟩, some 2, "import", []⟩),
    (2, ⟨⟨0, 0, 0⟩, none, "import", []⟩)],
   [], [0, 1, 2], [], 3⟩

/-- A collaborator-introduced parent cycle 0 → 1 → 0. -/
def cycScene : SceneState :=
  ⟨[(0, ⟨⟨0, 0, 0⟩, some 1, "import", []⟩),
    (1, ⟨⟨0, 0, 0⟩, some 0, "import", []⟩)],
   [], [0, 1], [], 2⟩

/-- A loaded asset with two parentless meshes (ambiguous root). -/
def twoRootAsset : List ImpMesh :=
  [⟨none, none, none⟩, ⟨none, some "gltf", none⟩]

/-! Section: Book-keeping lemmas about the association-list helpers -/

@[simp] theorem updateLineData_meshes (s : SceneState) (l : Nat)
    (f : LineData → LineData) : (updateLineData s l f).meshes = s.meshes := rfl

@[simp] theorem updateLineData_lines (s : SceneState) (l : Nat)
    (f : LineData → LineData) :
    (updateLineData s l f).lines = updAssoc l f s.lines := rfl

@[simp] theorem updateMeshData_lines (s : SceneState) (m : Nat)
    (f : MeshData → MeshData) : (updateMeshData s m f).lines = s.lines := rfl

@[simp] theorem updateMeshData_meshes (s : SceneState) (m : Nat)
    (f : MeshData → MeshData) :
    (updateMeshData s m f).meshes = updAssoc m f s.meshes := rfl

theorem lookupId_cons_self (k : Nat) (v : α) (rest : List (Nat × α)) :
    lookupId k ((k, v) :: rest) = some v := by
  simp [lookupId]

theorem lookupId_cons_ne (k k2 : Nat) (h : k ≠ k2) (v : α)
    (rest : List (Nat × α)) :
    lookupId k ((k2, v) :: rest) = lookupId k rest := by
  simp [lookupId, h]

theorem updAssoc_cons_self (k : Nat) (f : α → α) (v : α)
    (rest : List (Nat × α)) :
    updAssoc k f ((k, v) :: rest) = (k, f v) :: updAssoc k f rest := by
  simp [updAssoc]

theorem updAssoc_cons_ne (k k2 : Nat) (h : k ≠ k2) (f : α → α) (v : α)
    (rest : List (Nat × α)) :
    updAssoc k f ((k2, v) :: rest) = (k2, v) :: updAssoc k f rest := by
  simp [updAssoc, h]

theorem lookupId_updAssoc_self (k : Nat) (f : α → α) (xs : List (Nat × α)) :
    lookupId k (updAssoc k f xs) = (lookupId k xs).map f := by
  induction xs with
  | nil => rfl
  | cons hd tl ih =>
      obtain ⟨k2, v⟩ := hd
      by_cases h : k = k2
      · subst h
        rw [updAssoc_cons_self, lookupId_cons_self, lookupId_cons_self]
        rfl
      · rw [updAssoc_cons_ne k k2 h, lookupId_cons_ne k k2 h,
            lookupId_cons_ne k k2 h, ih]

theorem lookupId_updAssoc_ne (k k2 : Nat) (f : α → α) (h : k2 ≠ k)
    (xs : List (Nat × α)) :
    lookupId k2 (updAssoc k f xs) = lookupId k2 xs := by
  induction xs with
  | nil => rfl
  | cons hd tl ih =>
      obtain ⟨k3, v⟩ := hd
      by_cases h2 : k = k3
      · subst h2
        rw [updAssoc_cons_self, lookupId_cons_ne k2 k h,
            lookupId_cons_ne k2 k h, ih]
      · by_cases h3 : k2 = k3
        · subst h3
          rw [updAssoc_cons_ne k k2 h2, lookupId_cons_self, lookupId_cons_self]
        · rw [updAssoc_cons_ne k k3 h2, lookupId_cons_ne k2 k3 h3,
              lookupId_cons_ne k2 k3 h3, ih]

theorem mem_updAssoc (k : Nat) (f : α → α) (v : α) (xs : List (Nat × α))
    (h : (k, v) ∈ updAssoc k f xs) : ∃ v0, (k, v0) ∈ xs ∧ v = f v0 := by
  induction xs with
  | nil => simp [updAssoc] at h
  | cons hd tl ih =>
      obtain ⟨k2, w⟩ := hd
      by_cases hk : k = k2
      · subst hk
        simp only [updAssoc, if_pos rfl, List.mem_cons] at h
        rcases h with h | h
        · exact ⟨w, List.mem_cons_self _ _, (Prod.mk.injEq _ _ _ _).mp h |>.2⟩
        · obtain ⟨v0, hv0, hv⟩ := ih h
          exact ⟨v0, List.mem_cons_of_mem _ hv0, hv⟩
      · simp only [updAssoc, if_neg hk, List.mem_cons] at h
        rcases h with h | h
        · exact absurd ((Prod.mk.injEq _ _ _ _).mp h).1 hk
        · obtain ⟨v0, hv0, hv⟩ := ih h
          exact ⟨v0, List.mem_cons_of_mem _ hv0, hv⟩

theorem updAssoc_id (k : Nat) (f : α → α) (xs : List (Nat × α))
    (h : ∀ v, (k, v) ∈ xs → f v = v) : updAssoc k f xs = xs := by
  induction xs with
  | nil => rfl
  | cons hd tl ih =>
      obtain ⟨k2, w⟩ := hd
      by_cases hk : k = k2
      · subst hk
        have hw : f w = w := h w (List.mem_cons_self _ _)
        rw [updAssoc_cons_self, hw,
            ih (fun v hv => h v (List.mem_cons_of_mem _ hv))]
      · rw [updAssoc_cons_ne k k2 hk,
            ih (fun v hv => h v (List.mem_cons_of_mem _ hv))]

theorem lookupId_of_mem_nodup (k : Nat) (v : α) (xs : List (Nat × α))
    (hnd : (xs.map Prod.fst).Nodup) (hm : (k, v) ∈ xs) :
    lookupId k xs = some v := by
  induction xs with
  | nil => simp at hm
  | cons hd tl ih =>
      obtain ⟨k2, w⟩ := hd
      simp only [List.map_cons, List.nodup_cons] at hnd
      rcases List.mem_cons.mp hm with h | h
      · obtain ⟨hk, hv⟩ := (Prod.mk.injEq _ _ _ _).mp h
        simp [lookupId, hk, hv]
      · have hk : k ≠ k2 := by
          intro hkk
          subst hkk
          exact hnd.1 (List.mem_map.mpr ⟨(k, v), h, rfl⟩)
        simp [lookupId, hk, ih hnd.2 h]

theorem eraseFirst_of_not_mem (k : Nat) (xs : List Nat) (h : k ∉ xs) :
    eraseFirst k xs = xs := by
  induction xs with
  | nil => rfl
  | cons x tl ih =>
      have hx : x ≠ k := fun hxk => h (hxk ▸ List.mem_cons_self _ _)
      have htl : k ∉ tl := fun hk => h (List.mem_cons_of_mem _ hk)
      simp [eraseFirst, hx, ih htl]

theorem not_mem_eraseFirst_of_count_le_one (k : Nat) (xs : List Nat)
    (h : xs.count k ≤ 1) : k ∉ eraseFirst k xs := by
  induction xs with
  | nil => simp [eraseFirst]
  | cons x tl ih =>
      by_cases hx : x = k
      · subst hx
        have : tl.count x = 0 := by
          have := List.count_cons_self x tl
          omega
        simp only [eraseFirst, if_pos rfl]
        exact List.count_eq_zero.mp this
      · have hct : tl.count k ≤ 1 := by
          have := List.count_cons k x tl
          simp only [beq_iff_eq] at this
          rw [this] at h
          omega
        simp only [eraseFirst, if_neg hx, List.mem_cons]
        rintro (h1 | h1)
        · exact hx h1.symm
        · exact ih hct h1

/-! Section: Lemmas about `findRoot` -/

theorem findRoot_eq_none (ms : List ImpMesh) (h : ∀ x ∈ ms, x.parent.isSome) :
    findRoot ms = none := by
  induction ms with
  | nil => rfl
  | cons x rest ih =>
      have hx := h x (List.mem_cons_self _ _)
      have hfalse : x.parent.isNone = false := by
        cases hp : x.parent <;> simp_all
      simp [findRoot, hfalse, ih (fun y hy => h y (List.mem_cons_of_mem _ hy))]

theorem findRoot_isSome_iff_any (ms : List ImpMesh) :
    (findRoot ms).isSome = ms.any (fun x => x.parent.isNone) := by
  induction ms with
  | nil => rfl
  | cons x rest ih =>
      cases hp : x.parent.isNone <;> simp [findRoot, hp, ih]

theorem findRoot_append_first (pre : List ImpMesh) (m : ImpMesh)
    (post : List ImpMesh) (hpre : ∀ x ∈ pre, x.parent.isSome)
    (hm : m.parent = none) :
    findRoot (pre ++ m :: post) = some m := by
  induction pre with
  | nil => simp [findRoot, hm]
  | cons x rest ih =>
      have hx := hpre x (List.mem_cons_self _ _)
      have hfalse : x.parent.isNone = false := by
        cases hp : x.parent <;> simp_all
      simp [findRoot, hfalse,
        ih (fun y hy => hpre y (List.mem_cons_of_mem _ hy))]

/-! Section: Unfolding equations for `disconnectLine` -/

theorem disconnectLine_eq_none (s : SceneState) (m l : Nat)
    (h : lookupId l s.lines = none) : disconnectLine s m l = s := by
  unfold disconnectLine
  rw [h]

theorem disconnectLine_eq_some (s : SceneState) (m l : Nat) (ld : LineData)
    (h : lookupId l s.lines = some ld) :
    disconnectLine s m l =
      (let s1 :=
        if ld.lfrom = some m then
          updateLineData s l (fun d =>
            { d with lfrom := none, p0 := PEnd.fixed (resolveEnd s d.p0) })
        else s
      let s2 :=
        if ld.lto = some m then
          updateLineData s1 l (fun d =>
            { d with lto := none, p1 := PEnd.fixed (resolveEnd s1 d.p1) })
        else s1
      updateMeshData s2 m (fun md => { md with lines := eraseFirst l md.lines })) := by
  unfold disconnectLine
  rw [h]

/-- The mesh map after a `disconnectLine`: only the splice on `m`'s
array happened (the endpoint updates touch the line map alone). -/
theorem disconnectLine_meshes (s : SceneState) (m l : Nat) (ld : LineData)
    (h : lookupId l s.lines = some ld) :
    (disconnectLine s m l).meshes =
      updAssoc m (fun md => { md with lines := eraseFirst l md.lines })
        s.meshes := by
  rw [disconnectLine_eq_some s m l ld h]
  by_cases c1 : ld.lfrom = some m <;> by_cases c2 : ld.lto = some m <;>
    simp [c1, c2]

/-- After a `disconnectLine`, the line's surviving record binds neither
endpoint to `m` any more. -/
theorem disconnectLine_lines_lookup (s : SceneState) (m l : Nat)
    (ld : LineData) (h : lookupId l s.lines = some ld) :
    ∃ ld2, lookupId l (disconnectLine s m l).lines = some ld2
      ∧ ld2.lfrom ≠ some m ∧ ld2.lto ≠ some m := by
  rw [disconnectLine_eq_some s m l ld h]
  by_cases c1 : ld.lfrom = some m <;> by_cases c2 : ld.lto = some m
  · simp only [if_pos c1, if_pos c2, updateMeshData_lines, updateLineData_lines]
    rw [lookupId_updAssoc_self, lookupId_updAssoc_self, h]
    exact ⟨_, rfl, by simp, by simp⟩
  · simp only [if_pos c1, if_neg c2, updateMeshData_lines, updateLineData_lines]
    rw [lookupId_updAssoc_self, h]
    refine ⟨_, rfl, by simp, ?_⟩
    simpa using c2
  · simp only [if_neg c1, if_pos c2, updateMeshData_lines, updateLineData_lines]
    rw [lookupId_updAssoc_self, h]
    refine ⟨_, rfl, ?_, by simp⟩
    simpa using c1
  · simp only [if_neg c1, if_neg c2, updateMeshData_lines]
    exact ⟨ld, h, c1, c2⟩

/-- A `disconnectLine` is the identity on any state in which the line
binds neither endpoint to `m` and no entry of `m`'s id in the mesh map
holds the line. -/
theorem disconnectLine_second_noop (t : SceneState) (m l : Nat)
    (hlines : ∀ ld2, lookupId l t.lines = some ld2 →
        ld2.lfrom ≠ some m ∧ ld2.lto ≠ some m)
    (hmeshes : ∀ v, (m, v) ∈ t.meshes → l ∉ v.lines) :
    disconnectLine t m l = t := by
  cases hld2 : lookupId l t.lines with
  | none => exact disconnectLine_eq_none t m l hld2
  | some ld2 =>
      obtain ⟨hf, ht⟩ := hlines ld2 hld2
      rw [disconnectLine_eq_some t m l ld2 hld2]
      simp only [if_neg hf, if_neg ht]
      have hupd : updAssoc m
          (fun md => { md with lines := eraseFirst l md.lines }) t.meshes =
          t.meshes := by
        apply updAssoc_id
        intro v hv
        rw [eraseFirst_of_not_mem l v.lines (hmeshes v hv)]
      show { t with meshes := updAssoc m _ t.meshes } = t
      rw [hupd]

/-! Section: Claim theorems -/

/-- Claim C1 (code defect, evaluated): after creating three boxes,
`addConnector(P0, P2)` (line 3) and the rebinding
`connect(P1, line3, from)`, line 3 is still a member of P0's connector
set although neither of its endpoints references P0, and both objects
are still in the scene registry — the connector-set consistency
invariant does not survive every sequence of public operations. -/
theorem rebind_breaks_connector_set_invariant :
    3 ∈ linesOf sRebind 0
    ∧ fromOf sRebind 3 ≠ some 0
    ∧ toOf sRebind 3 ≠ some 0
    ∧ 0 ∈ sRebind.sceneMeshes
    ∧ 3 ∈ sRebind.sceneLines := by
  decide

/-- Claim C2 (code defect, evaluated): `removeConnector` on line 2
running from box 0 to box 1 completes, clears the `from` binding, but —
because its `to` branch disconnects the captured `from` mesh again —
leaves the `to` endpoint bound to box 1 and the line in box 1's
connector set, while the line does leave the scene registry. -/
theorem removeLine_leaves_to_endpoint_bound :
    (removeLine sLine01 2).isSome = true
    ∧ fromOf sRemovedBoth 2 = none
    ∧ toOf sRemovedBoth 2 = some 1
    ∧ 2 ∈ linesOf sRemovedBoth 1
    ∧ 2 ∉ linesOf sRemovedBoth 0
    ∧ 2 ∉ sRemovedBoth.sceneLines := by
  decide

/-- Claim C3 (code defect, evaluated): `addConnector(P, P)` produces one
connector with both endpoints referencing P, but pushes it TWICE into
P's connector list instead of exactly once. -/
theorem addLine_self_loop_double_push :
    fromOf sSelfLoop 1 = some 0
    ∧ toOf sSelfLoop 1 = some 0
    ∧ (linesOf sSelfLoop 0).count 1 = 2 := by
  decide

/-- Claim C4 counterexample: line 3 runs from box 0 to box 2 — so its
`to` endpoint is NOT bound to box 0 — yet rebinding its `from` endpoint
to box 1 leaves it in box 0's connector set, where the claim requires
removal. -/
theorem connectLine_rebind_keeps_old_set_entry :
    fromOf sRebind 3 = some 1
    ∧ toOf sRebind 3 = some 2
    ∧ 3 ∈ linesOf sRebind 0 := by
  decide

/-- Claim C4 (amended): rebinding a bound `from` endpoint to a different
primitive replaces the binding but never touches the old primitive's
record, so the connector stays in the old primitive's connector set
whether or not the `to` endpoint is bound there. -/
theorem connectLine_rebind_replaces_binding_keeps_old_entry
    (s : SceneState) (p1 p2 l : Nat) (md1 md2 : MeshData) (ld : LineData)
    (h1 : lookupId p1 s.meshes = some md1)
    (h2 : lookupId p2 s.meshes = some md2)
    (hl : lookupId l s.lines = some ld)
    (hf : ld.lfrom = some p1)
    (hmem : l ∈ md1.lines)
    (hne : p1 ≠ p2) :
    fromOf (connectLine s p2 l "from") l = some p2
    ∧ lookupId p1 (connectLine s p2 l "from").meshes = some md1
    ∧ l ∈ linesOf (connectLine s p2 l "from") p1 := by
  have hbody : connectLine s p2 l "from" =
      (let s1 := updateLineData s l (fun d =>
          { d with lfrom := some p2, p0 := PEnd.ref p2 })
       if l ∈ md2.lines then s1
       else updateMeshData s1 p2 (fun d => { d with lines := d.lines ++ [l] })) := by
    unfold connectLine
    rw [h2, hl]
    simp
  have hlines2 : fromOf (connectLine s p2 l "from") l = some p2 := by
    rw [hbody]
    by_cases hm2 : l ∈ md2.lines <;>
      simp [hm2, fromOf, lookupId_updAssoc_self, hl]
  have hmesh1 : lookupId p1 (connectLine s p2 l "from").meshes = some md1 := by
    rw [hbody]
    by_cases hm2 : l ∈ md2.lines
    · simpa [hm2] using h1
    · simp only [hm2, if_neg, ite_false, updateMeshData_meshes,
        updateLineData_meshes]
      rw [lookupId_updAssoc_ne p2 p1 _ hne]
      exact h1
  refine ⟨hlines2, hmesh1, ?_⟩
  simp [linesOf, hmesh1, hmem]

/-- Witness for the amended C4 theorem at the concrete rebinding
state. -/
theorem connectLine_rebind_witness :
    fromOf sRebind 3 = some 1
    ∧ lookupId 0 sRebind.meshes = some ⟨⟨0, 0, 0⟩, none, "box", [3]⟩
    ∧ 3 ∈ linesOf sRebind 0 :=
  connectLine_rebind_replaces_binding_keeps_old_entry
    (addLine sBox3 0 2).1 0 1 3
    ⟨⟨0, 0, 0⟩, none, "box", [3]⟩ ⟨⟨0, 0, 0⟩, none, "box", []⟩
    ⟨some 0, some 2, PEnd.ref 0, PEnd.ref 2⟩
    (by decide) (by decide) (by decide) rfl (by decide) (by decide)

/-- Claim C5: for a primitive `p` at the origin bound (with a live
points alias) as the `from` endpoint of connector `c`,
`moveTo(p, {x:5})` — whose absent components default to the current
coordinates — puts `p` at (5,0,0); the line record is untouched, so the
aliased `points[0]` now resolves to (5,0,0), while the other endpoint's
point is unchanged whether it aliases a different primitive or is a
fixed value. -/
theorem moveTo_propagates_from_endpoint (s : SceneState) (p c : Nat)
    (md : MeshData) (ld : LineData)
    (hm : lookupId p s.meshes = some md) (hpos : md.position = ⟨0, 0, 0⟩)
    (hl : lookupId c s.lines = some ld) (hf : ld.lfrom = some p)
    (hp0 : ld.p0 = PEnd.ref p) :
    posOf (moveTo s p ⟨some 5, none, none⟩) p = some ⟨5, 0, 0⟩
    ∧ lookupId c (moveTo s p ⟨some 5, none, none⟩).lines = some ld
    ∧ resolveEnd (moveTo s p ⟨some 5, none, none⟩) ld.p0 = ⟨5, 0, 0⟩
    ∧ (∀ q, ld.p1 = PEnd.ref q → q ≠ p →
        resolveEnd (moveTo s p ⟨some 5, none, none⟩) ld.p1 = resolveEnd s ld.p1)
    ∧ (∀ v, ld.p1 = PEnd.fixed v →
        resolveEnd (moveTo s p ⟨some 5, none, none⟩) ld.p1 = v) := by
  have hmove : moveTo s p ⟨some 5, none, none⟩ =
      updateMeshData s p (fun md2 =>
        { md2 with position :=
            ⟨md2.position.x + (5 - md.position.x),
             md2.position.y + (md.position.y - md.position.y),
             md2.position.z + (md.position.z - md.position.z)⟩ }) := by
    unfold moveTo
    rw [hm]
    simp [move]
  have hlook : lookupId p (moveTo s p ⟨some 5, none, none⟩).meshes =
      some { md with position := ⟨5, 0, 0⟩ } := by
    rw [hmove]
    simp only [updateMeshData_meshes]
    rw [lookupId_updAssoc_self, hm]
    simp [hpos]
  refine ⟨?_, ?_, ?_, ?_, ?_⟩
  · simp [posOf, hlook]
  · rw [hmove]
    simp only [updateMeshData_lines]
    exact hl
  · rw [hp0]
    simp [resolveEnd, hlook]
  · intro q hq hqp
    rw [hq]
    simp only [resolveEnd]
    rw [hmove]
    simp only [updateMeshData_meshes]
    rw [lookupId_updAssoc_ne p q _ hqp]
  · intro v hv
    rw [hv]
    rfl

/-- Witness for the C5 theorem at the two-box state: box 0 moves to
(5,0,0), the aliased first point follows, and the second point (alias of
box 1) is unchanged. -/
theorem moveTo_propagates_witness :
    posOf (moveTo sLine01 0 ⟨some 5, none, none⟩) 0 = some ⟨5, 0, 0⟩
    ∧ resolveEnd (moveTo sLine01 0 ⟨some 5, none, none⟩) (PEnd.ref 0) = ⟨5, 0, 0⟩
    ∧ resolveEnd (moveTo sLine01 0 ⟨some 5, none, none⟩) (PEnd.ref 1) =
        resolveEnd sLine01 (PEnd.ref 1) := by
  obtain ⟨h1, h2, h3, h4, h5⟩ :=
    moveTo_propagates_from_endpoint sLine01 0 2
      ⟨⟨0, 0, 0⟩, none, "box", [2]⟩
      ⟨some 0, some 1, PEnd.ref 0, PEnd.ref 1⟩
      (by decide) rfl (by decide) rfl rfl
  exact ⟨h1, h3, h4 1 rfl (by decide)⟩

/-- The recursion of `root` never returns on the two-cycle 0 → 1 → 0: no amount of fuel
makes the recursion reach a parentless mesh. -/
theorem rootFuel_cyc_pair (fuel : Nat) :
    rootFuel cycScene fuel 0 = none ∧ rootFuel cycScene fuel 1 = none := by
  induction fuel with
  | zero => exact ⟨rfl, rfl⟩
  | succ n ih => exact ⟨ih.2, ih.1⟩

/-- Claim C6 (code defect, evaluated): on the acyclic chain 0 → 1 → 2
the source's `root` reaches the parentless ancestor 2 from every start,
but on a collaborator-introduced parent cycle the recursion never
returns — there is no `CycleError` path, the call simply never
terminates. -/
theorem root_chain_ok_but_cycle_diverges :
    rootFuel chainScene 5 0 = some 2
    ∧ rootFuel chainScene 5 1 = some 2
    ∧ rootFuel chainScene 5 2 = some 2
    ∧ ∀ fuel, rootFuel cycScene fuel 0 = none :=
  ⟨rfl, rfl, rfl, fun fuel => (rootFuel_cyc_pair fuel).1⟩

/-- Claim C7 counterexample: a loaded asset with TWO parentless meshes
(an ambiguous root) is not rejected — `importMesh` succeeds and returns
the first parentless mesh, tagged. -/
theorem importMesh_ambiguous_root_not_rejected :
    twoRootAsset.countP (fun m => m.parent.isNone) = 2
    ∧ importMesh (some twoRootAsset) =
        Except.ok ⟨none, some "import", some []⟩ :=
  ⟨by decide, rfl⟩

/-- Claim C7 (amended): `importAsset` fails when the collaborator's load
fails; it succeeds exactly when the loaded result has at least one
parentless mesh — with zero parentless meshes it fails (on the undefined
root), and with one or more it returns the FIRST parentless mesh tagged
with kind `import` and an empty connector list, with no ambiguity check
on the rest. -/
theorem importMesh_first_parentless (ns pre post : List ImpMesh)
    (m : ImpMesh) (hpre : ∀ x ∈ pre, x.parent.isSome)
    (hm : m.parent = none) :
    importMesh none = Except.error ImportErr.loadFailed
    ∧ (importMesh (some ns)).isOk = ns.any (fun x => x.parent.isNone)
    ∧ importMesh (some (pre ++ m :: post)) = Except.ok (tagRoot m)
    ∧ (tagRoot m).mtype = some "import"
    ∧ (tagRoot m).mlines = some [] := by
  refine ⟨rfl, ?_, ?_, rfl, rfl⟩
  · have h := findRoot_isSome_iff_any ns
    unfold importMesh
    cases hfr : findRoot ns <;> simp_all [Except.isOk, Except.toBool]
  · have hred : importMesh (some (pre ++ m :: post)) =
        match findRoot (pre ++ m :: post) with
        | none => Except.error ImportErr.nullRootAccess
        | some rootMesh => Except.ok (tagRoot rootMesh) := rfl
    rw [hred, findRoot_append_first pre m post hpre hm]

/-- Witness for the amended C7 theorem at the two-root asset. -/
theorem importMesh_first_parentless_witness :
    importMesh none = Except.error ImportErr.loadFailed
    ∧ (importMesh (some twoRootAsset)).isOk =
        twoRootAsset.any (fun x => x.parent.isNone)
    ∧ importMesh (some ([] ++ ImpMesh.mk none none none :: [ImpMesh.mk none (some "gltf") none])) =
        Except.ok (tagRoot ⟨none, none, none⟩)
    ∧ (tagRoot (⟨none, none, none⟩ : ImpMesh)).mtype = some "import"
    ∧ (tagRoot (⟨none, none, none⟩ : ImpMesh)).mlines = some [] :=
  importMesh_first_parentless twoRootAsset [] [⟨none, some "gltf", none⟩]
    ⟨none, none, none⟩ (by simp) rfl

/-- Claim C8 (code defect, evaluated): a kind outside {box, sphere}
leaves the state — scene registry included — completely unchanged and
returns null (`none`) instead of raising `UnsupportedKindError`. -/
theorem addMesh_unsupported_kind_silent (s : SceneState) (type : String)
    (hb : type ≠ "box") (hs : type ≠ "sphere") :
    addMesh s type = (s, none) := by
  simp [addMesh, hb, hs]

/-- Witness for the C8 theorem at a concrete unsupported kind. -/
theorem addMesh_unsupported_kind_witness :
    addMesh emptyScene "cylinder" = (emptyScene, none) :=
  addMesh_unsupported_kind_silent emptyScene "cylinder" (by decide) (by decide)

/-- Claim C9 counterexample: after the self-loop `addConnector(P, P)`
pushed line 1 twice into box 0's connector list, a second
`disconnect(P, C)` removes the leftover duplicate — twice is not the
same state as once. -/
theorem disconnect_twice_differs_after_self_loop :
    disconnectLine (disconnectLine sSelfLoop 0 1) 0 1 ≠
      disconnectLine sSelfLoop 0 1 := by
  decide

/-- Claim C9 (amended): with globally unique ids and the connector
occurring at most once in the primitive's connector list — true in every
reachable state except the double-pushed self-loop — `disconnect(P, C)`
is idempotent: the second call changes nothing, and in particular
disconnecting a pair with no existing binding is a no-op, not an
error. -/
theorem disconnectLine_idem (s : SceneState) (m l : Nat)
    (hwf : WFIds s) (hcount : (linesOf s m).count l ≤ 1) :
    disconnectLine (disconnectLine s m l) m l = disconnectLine s m l := by
  cases hld : lookupId l s.lines with
  | none =>
      rw [disconnectLine_eq_none s m l hld, disconnectLine_eq_none s m l hld]
  | some ld =>
      apply disconnectLine_second_noop
      · intro ld2 hld2
        obtain ⟨ld3, hld3, hf, ht⟩ := disconnectLine_lines_lookup s m l ld hld
        rw [hld3] at hld2
        injection hld2 with h
        subst h
        exact ⟨hf, ht⟩
      · intro v hv
        rw [disconnectLine_meshes s m l ld hld] at hv
        obtain ⟨v0, hv0, rfl⟩ := mem_updAssoc m _ v s.meshes hv
        have hl0 : lookupId m s.meshes = some v0 :=
          lookupId_of_mem_nodup m v0 s.meshes hwf.1 hv0
        have hlin : linesOf s m = v0.lines := by simp [linesOf, hl0]
        have hcnt : v0.lines.count l ≤ 1 := hlin ▸ hcount
        exact not_mem_eraseFirst_of_count_le_one l v0.lines hcnt

/-- Witness for the amended C9 theorem at the two-box/one-line state. -/
theorem disconnectLine_idem_witness :
    disconnectLine (disconnectLine sLine01 0 2) 0 2 =
      disconnectLine sLine01 0 2 :=
  disconnectLine_idem sLine01 0 2 (by decide) (by decide)

/-- Claim C10: `removeLine` returns normally exactly when a bound `to`
endpoint implies a bound `from` endpoint; with `from` absent and `to`
bound, the captured null `from` is dereferenced and the call faults
instead of disconnecting the `to` endpoint. -/
theorem removeLine_total_iff_from_covers_to (s : SceneState) (l : Nat)
    (ld : LineData) (h : lookupId l s.lines = some ld) :
    (removeLine s l).isSome = true ↔
      (ld.lto.isSome = true → ld.lfrom.isSome = true) := by
  unfold removeLine
  rw [h]
  cases hf : ld.lfrom <;> cases ht : ld.lto <;> simp [hf, ht]

/-- Witness for the C10 theorem: on the connector whose `from` was
disconnected while `to` stays bound, `removeLine` faults. -/
theorem removeLine_total_witness :
    (removeLine sFreeFrom 2).isSome = true ↔
      ((some 1 : Option Nat).isSome = true →
        (none : Option Nat).isSome = true) :=
  removeLine_total_iff_from_covers_to sFreeFrom 2
    ⟨none, some 1, PEnd.fixed ⟨0, 0, 0⟩, PEnd.ref 1⟩ (by decide)
